import Mathlib

/-!
Shallow embedding of the IndGo virtual-airline backend (latest merged
revision of `server.js`): rank helpers, route ingestion parsing, roster
synthesis, the duty lifecycle endpoints, and the PIREP review workflow.
Machine integers/timestamps are modelled as `Int` milliseconds and flight
hours as `ℚ` (the JS floats, idealized to exact arithmetic); `NaN` results
are modelled as `Option.none`; Mongo documents are Lean structures and
collections are lists.
-/

/-! ## String helpers mirroring the JS built-ins used by the source -/

/-- ASCII whitespace, covering the characters the JS `\s` class and
`String.prototype.trim` treat as whitespace in the data handled here. -/
def isWs (c : Char) : Bool :=
  c == ' ' || c == '\t' || c == '\n' || c == '\r'

/-- `String.prototype.trim`. -/
def jsTrim (s : String) : String :=
  String.mk (((s.data.dropWhile isWs).reverse.dropWhile isWs).reverse)

/-- ASCII uppercase conversion (`String.prototype.toUpperCase` on the ASCII
data handled here). -/
def asciiUpper (c : Char) : Char :=
  if 'a' ≤ c && c ≤ 'z' then Char.ofNat (c.toNat - 32) else c

/-- `String.prototype.toUpperCase`. -/
def jsToUpper (s : String) : String :=
  String.mk (s.data.map asciiUpper)

/-- Does `pat` occur at the head of `s`? -/
def leadMatch : List Char → List Char → Bool
  | [], _ => true
  | _ :: _, [] => false
  | p :: ps, c :: cs => p == c && leadMatch ps cs

/-- Does `pat` occur anywhere in `s`?  (substring test, used to model the
alternation regexes `new RegExp(pat, i).test(s)` whose alternatives are
plain literals). -/
def occursIn (pat : List Char) : List Char → Bool
  | [] => pat.isEmpty
  | c :: cs => leadMatch pat (c :: cs) || occursIn pat cs

/-- Substring test on strings. -/
def strHas (s pat : String) : Bool :=
  occursIn pat.data s.data

/-- Decimal value of a digit run. -/
def natOfDigits (ds : List Char) : Nat :=
  ds.foldl (fun n c => n * 10 + (c.toNat - 48)) 0

/-- `parseInt(s, 10)`: skip leading whitespace, optional sign, then a
leading digit run; `NaN` (here `none`) when no digits follow. -/
def jsParseInt (cs : List Char) : Option Int :=
  let parseDigits : List Char → Option Int := fun l =>
    let ds := l.takeWhile Char.isDigit
    if ds.isEmpty then none else some (natOfDigits ds : Int)
  match cs.dropWhile isWs with
  | '-' :: rest => (parseDigits rest).map (fun n => -n)
  | '+' :: rest => parseDigits rest
  | rest => parseDigits rest

/-- The regex `/(\d+)\s*suffix/`: scanning left to right, find the first
maximal digit run that is followed (after optional whitespace) by the
character `suffix`, and return its value. -/
def digitsThen (suffix : Char) : List Char → Option Nat
  | [] => none
  | x :: rest =>
    if x.isDigit then
      let run := List.takeWhile Char.isDigit (x :: rest)
      let after := (List.dropWhile Char.isDigit (x :: rest)).dropWhile isWs
      match after with
      | y :: _ => if y == suffix then some (natOfDigits run) else digitsThen suffix rest
      | [] => digitsThen suffix rest
    else digitsThen suffix rest

/-- `String.prototype.split(c)` for a one-character separator. -/
def splitOnChar (c : Char) : List Char → List (List Char)
  | [] => [[]]
  | x :: rest =>
    let r := splitOnChar c rest
    if x == c then [] :: r
    else
      match r with
      | g :: gs => (x :: g) :: gs
      | [] => [[x]]

/-! ## FTPL constants and the rank ladder (source: top of server.js) -/

/-- 8 hours in milliseconds. -/
def MIN_REST_PERIOD : Int := 8 * 60 * 60 * 1000

/-- Daily flight-hour ceiling. -/
def MAX_DAILY_FLIGHT_HOURS : ℚ := 10

/-- Monthly flight-hour ceiling. -/
def MAX_MONTHLY_FLIGHT_HOURS : ℚ := 100

/-- The ordered rank tier list. -/
def pilotRanks : List String :=
  ["IndGo Cadet", "Skyline Observer", "Route Explorer", "Skyline Officer",
   "Command Captain", "Elite Captain", "Blue Eagle", "Line Instructor",
   "Chief Flight Instructor", "IndGo SkyMaster", "Blue Legacy Commander"]

/-- Flight-hour thresholds per rank tier. -/
def rankThresholds : List (String × ℚ) :=
  [("IndGo Cadet", 0), ("Skyline Observer", 50), ("Route Explorer", 100),
   ("Skyline Officer", 180), ("Command Captain", 300), ("Elite Captain", 500),
   ("Blue Eagle", 750), ("Line Instructor", 1000),
   ("Chief Flight Instructor", 1400), ("IndGo SkyMaster", 1800),
   ("Blue Legacy Commander", 2300)]

/-- `rankThresholds[rankName]` (every rank in `pilotRanks` is present). -/
def rankThreshold (r : String) : ℚ :=
  ((rankThresholds.lookup r).getD 0)

/-- `rankIndex`: position of a (trimmed) rank name in the tier list, `-1`
when absent. -/
def rankIndex (r : String) : Int :=
  match pilotRanks.findIdx? (fun rn => rn == jsTrim r) with
  | some i => (i : Int)
  | none => -1

/-- `canFlyLeg`: both ranks must resolve to valid tiers and the leg tier
must not exceed the pilot tier. -/
def canFlyLeg (userRank legRank : String) : Bool :=
  let ui := rankIndex userRank
  let li := rankIndex legRank
  ui ≥ 0 && li ≥ 0 && li ≤ ui

/-! ## Route ingestion: aircraft-to-rank table and the cell parsers -/

/-- `deduceRankFromAircraft`: substring-match the uppercased aircraft string
against the aircraft-family table; unmatched aircraft map to the
`"Unknown"` sentinel. -/
def deduceRankFromAircraft (acStr : String) : String :=
  let s := jsToUpper acStr
  if s = "" then "Unknown"
  else if strHas s "Q400" || strHas s "A320" || strHas s "B738" then "IndGo Cadet"
  else if strHas s "A321" || strHas s "B737" then "Skyline Observer"
  else if strHas s "A330" || strHas s "B38M" then "Route Explorer"
  else if strHas s "787-8" || strHas s "777-200LR" then "Skyline Officer"
  else if strHas s "787-9" || strHas s "777-300ER" then "Command Captain"
  else if strHas s "A350" then "Elite Captain"
  else if strHas s "A380" || strHas s "747" || strHas s "744" then "Blue Eagle"
  else if strHas s "INSTRUCTOR" then "Line Instructor"
  else if strHas s "CHIEF" then "Chief Flight Instructor"
  else if strHas s "SKYMASTER" then "IndGo SkyMaster"
  else if strHas s "COMMANDER" then "Blue Legacy Commander"
  else "Unknown"

/-- One scheduled flight segment.  `rankUnlock` is `none` when the field is
absent from the record (roster legs persisted without it). -/
structure Leg where
  flightNumber : String
  departure : String
  arrival : String
  aircraft : String
  flightTime : ℚ
  rankUnlock : Option String
  carrier : String
  deriving DecidableEq, Repr

/-- `getLegRequiredRank`: the explicit `rankUnlock` tag when it is a valid
tier, otherwise the rank deduced from the aircraft string. -/
def getLegRequiredRank (leg : Leg) : String :=
  match leg.rankUnlock with
  | some ru => if pilotRanks.contains ru then ru else deduceRankFromAircraft leg.aircraft
  | none => deduceRankFromAircraft leg.aircraft

/-- Hours+minutes pair from the two sides of a colon. -/
def pairHoursMinutes (p0 p1 : List Char) : Option ℚ :=
  match jsParseInt p0, jsParseInt p1 with
  | some h, some m => some ((h : ℚ) + (m : ℚ) / 60)
  | _, _ => none

/-- `convertTimeToDecimal` (merged revision): colon-delimited `H:MM` or
`H:MM:SS` first, then the letter-suffixed `XhYm` regexes, `NaN` (`none`)
otherwise. -/
def convertTimeToDecimal (timeStr : String) : Option ℚ :=
  if timeStr = "" then none
  else
    let t := jsTrim timeStr
    let colonVal : Option ℚ :=
      if t.data.contains ':' then
        match splitOnChar ':' t.data with
        | [p0, p1] => pairHoursMinutes p0 p1
        | [p0, p1, _] => pairHoursMinutes p0 p1
        | _ => none
      else none
    match colonVal with
    | some v => some v
    | none =>
      let hm := digitsThen 'h' t.data
      let mm := digitsThen 'm' t.data
      match hm, mm with
      | none, none => none
      | _, _ => some (((hm.getD 0 : Nat) : ℚ) + ((mm.getD 0 : Nat) : ℚ) / 60)

/-- The regex `/^\s*([A-Z]{4})/`: a 4-letter uppercase code at the start of
the cell, ignoring leading whitespace and trailing text. -/
def extractIcao (text : String) : Option String :=
  if text = "" then none
  else
    let isUpperAZ : Char → Bool := fun c => 'A' ≤ c && c ≤ 'Z'
    match text.data.dropWhile isWs with
    | a :: b :: c :: d :: _ =>
      if isUpperAZ a && isUpperAZ b && isUpperAZ c && isUpperAZ d then
        some (String.mk [a, b, c, d])
      else none
    | _ => none

/-- Mapping of one primary-sheet data row to a leg: both airport codes
extracted, flight number and aircraft non-empty, duration parsed to a
finite value `> 0`, with the operator defaulted and the rank deduced from
the aircraft; invalid rows are dropped (`none`). -/
def legFromPrimaryRow (flightNumberCell departureCell arrivalCell aircraftCell timeCell : String) : Option Leg :=
  let flightNumber := jsTrim flightNumberCell
  let aircraft := jsTrim aircraftCell
  let ru := deduceRankFromAircraft aircraft
  match extractIcao departureCell, extractIcao arrivalCell, convertTimeToDecimal timeCell with
  | some dep, some arr, some ft =>
    if flightNumber ≠ "" ∧ aircraft ≠ "" ∧ 0 < ft ∧ ru ≠ "" then
      some { flightNumber := flightNumber, departure := dep, arrival := arr,
             aircraft := aircraft, flightTime := ft, rankUnlock := some ru,
             carrier := "IndGo Air Virtual" }
    else none
  | _, _, _ => none

example : convertTimeToDecimal "90" = none := by decide

/-! ## Data model: pilots, rosters, reports -/

/-- Report review status. -/
inductive PirepStatus
  | PENDING
  | APPROVED
  | REJECTED
  deriving DecidableEq, Repr

/-- Duty status enum from the user schema. -/
inductive DutyStatus
  | ON_REST
  | ON_DUTY
  deriving DecidableEq, Repr

/-- A duty roster document. -/
structure Roster where
  name : String
  hub : String
  legs : List Leg
  totalFlightTime : ℚ
  multiplier : ℚ
  isAvailable : Bool
  isGenerated : Bool
  deriving DecidableEq, Repr

/-- A pilot (user) document: the duty and flight-hour ledger fields. -/
structure Pilot where
  id : Nat
  rank : String
  flightHours : ℚ
  dutyStatus : DutyStatus
  currentRoster : Option Nat
  lastDutyStart : Option Int
  lastDutyOff : Option Int
  dailyFlightHours : ℚ
  monthlyFlightHours : ℚ
  lastHourReset : Int
  lastKnownAirport : String
  lastDutyAirport : Option String
  deriving DecidableEq, Repr

/-- A flight report (PIREP) document.  `rosterLeg` is the optional link
`{rosterId, flightNumber}` stamped when filing while on duty. -/
structure Pirep where
  pilot : Nat
  flightNumber : String
  departure : String
  arrival : String
  aircraft : String
  flightTime : ℚ
  status : PirepStatus
  reviewedBy : Option Nat
  rejectionReason : Option String
  reviewedAt : Option Int
  isMultiplierEligible : Bool
  rosterLeg : Option (Nat × String)
  deriving DecidableEq, Repr

/-! ## Rank promotion -/

/-- The tier the hours entitle: scan `pilotRanks` from highest to lowest and
take the first tier whose threshold is at most the hours. -/
def hoursTier (hours : ℚ) : Option String :=
  pilotRanks.reverse.find? (fun rn => decide (rankThreshold rn ≤ hours))

/-- `checkAndApplyRankUpdate`: assign the pilot the highest tier whose
threshold is within their cumulative hours (keeping the current rank when
no threshold matches) and report whether a change occurred. -/
def checkAndApplyRankUpdate (pilot : Pilot) : Pilot × Option String :=
  let newRank := (hoursTier pilot.flightHours).getD pilot.rank
  if newRank ≠ pilot.rank then ({ pilot with rank := newRank }, some newRank)
  else (pilot, none)

/-! ## PIREP review workflow -/

/-- Response of the approve endpoint. -/
inductive ApproveOutcome
  | notPending
  | ok (awardedHours : ℚ) (promo : Option String)
  deriving DecidableEq, Repr

/-- The `hoursToAdd` computation of the approve handler: the claimed time,
multiplied by the roster multiplier when the report is multiplier-eligible,
its roster link resolves, and the multiplier exceeds 1. -/
def awardedHours (findRoster : Nat → Option Roster) (pirep : Pirep) : ℚ :=
  if pirep.isMultiplierEligible then
    match pirep.rosterLeg with
    | some (rosterId, _) =>
      match findRoster rosterId with
      | some roster =>
        if 1 < roster.multiplier then pirep.flightTime * roster.multiplier
        else pirep.flightTime
      | none => pirep.flightTime
    | none => pirep.flightTime
  else pirep.flightTime

/-- `PUT /api/pireps/:pirepId/approve` (after the report and pilot lookups):
an already-reviewed report is refused before any mutation; otherwise award
the claimed hours, multiplied by the roster multiplier when the report is
multiplier-eligible and its roster still resolves with multiplier above 1,
add them to the cumulative, monthly and daily ledgers, update the last
known airport, run the promotion check, and stamp the review. -/
def approvePirep (findRoster : Nat → Option Roster) (reviewer : Nat) (now : Int)
    (pilot : Pilot) (pirep : Pirep) : ApproveOutcome × Pilot × Pirep :=
  if pirep.status ≠ PirepStatus.PENDING then (ApproveOutcome.notPending, pilot, pirep)
  else
    let hoursToAdd : ℚ := awardedHours findRoster pirep
    let pilot1 := { pilot with
      flightHours := pilot.flightHours + hoursToAdd,
      monthlyFlightHours := pilot.monthlyFlightHours + hoursToAdd,
      dailyFlightHours := pilot.dailyFlightHours + hoursToAdd,
      lastKnownAirport := pirep.arrival }
    let result := checkAndApplyRankUpdate pilot1
    let pirep1 := { pirep with
      status := PirepStatus.APPROVED,
      reviewedBy := some reviewer,
      reviewedAt := some now }
    (ApproveOutcome.ok hoursToAdd result.2, result.1, pirep1)

/-- Response of the reject endpoint. -/
inductive RejectOutcome
  | reasonRequired
  | notPending
  | ok
  deriving DecidableEq, Repr

/-- `PUT /api/pireps/:pirepId/reject` (after the report lookup): a reason is
required, an already-reviewed report is refused before any mutation,
otherwise stamp REJECTED with reason, reviewer and timestamp. -/
def rejectPirep (reason : String) (reviewer : Nat) (now : Int) (pirep : Pirep) :
    RejectOutcome × Pirep :=
  if reason = "" then (RejectOutcome.reasonRequired, pirep)
  else if pirep.status ≠ PirepStatus.PENDING then (RejectOutcome.notPending, pirep)
  else
    (RejectOutcome.ok,
      { pirep with
        status := PirepStatus.REJECTED,
        rejectionReason := some reason,
        reviewedBy := some reviewer,
        reviewedAt := some now })

/-! ## Report filing -/

/-- The flight details submitted with a report. -/
structure PirepSubmission where
  flightNumber : String
  departure : String
  arrival : String
  aircraft : String
  flightTime : ℚ
  deriving DecidableEq, Repr

/-- Response of the filing endpoint. -/
inductive FileOutcome
  | missingFields
  | noRosterAssigned
  | legNotInRoster
  | rankBlocked (requiredRank : String)
  | duplicateLeg
  | filed (p : Pirep)
  deriving DecidableEq, Repr

/-- `POST /api/pireps` (after authentication and the image upload): while on
duty, the submission must match a roster leg case-insensitively, pass the
rank gate, and not duplicate an existing report linked to the same
`(rosterId, flightNumber)` pair for this pilot; the multiplier-eligibility
flag marks the final leg.  While resting, an ad-hoc report is accepted
subject to the aircraft-derived rank gate. -/
def filePirep (findRoster : Nat → Option Roster) (allPireps : List Pirep)
    (pilot : Pilot) (sub : PirepSubmission) : FileOutcome :=
  if sub.flightNumber = "" ∨ sub.departure = "" ∨ sub.arrival = "" ∨
      sub.aircraft = "" ∨ sub.flightTime = 0 then FileOutcome.missingFields
  else
    let base : Pirep :=
      { pilot := pilot.id, flightNumber := sub.flightNumber,
        departure := sub.departure, arrival := sub.arrival,
        aircraft := sub.aircraft, flightTime := sub.flightTime,
        status := PirepStatus.PENDING, reviewedBy := none,
        rejectionReason := none, reviewedAt := none,
        isMultiplierEligible := false, rosterLeg := none }
    if pilot.dutyStatus = DutyStatus.ON_DUTY then
      match pilot.currentRoster with
      | none => FileOutcome.noRosterAssigned
      | some rosterId =>
        match findRoster rosterId with
        | none => FileOutcome.noRosterAssigned
        | some roster =>
          match roster.legs.find? (fun l =>
              jsToUpper l.flightNumber == jsToUpper sub.flightNumber &&
              jsToUpper l.departure == jsToUpper sub.departure &&
              jsToUpper l.arrival == jsToUpper sub.arrival) with
          | none => FileOutcome.legNotInRoster
          | some leg =>
            let requiredRank := getLegRequiredRank leg
            if !canFlyLeg pilot.rank requiredRank then
              FileOutcome.rankBlocked requiredRank
            else if allPireps.any (fun p =>
                p.pilot == pilot.id &&
                p.rosterLeg == some (rosterId, sub.flightNumber)) then
              FileOutcome.duplicateLeg
            else
              let eligible : Bool :=
                match roster.legs.getLast? with
                | some lastLeg => jsToUpper lastLeg.flightNumber == jsToUpper sub.flightNumber
                | none => false
              FileOutcome.filed { base with
                rosterLeg := some (rosterId, sub.flightNumber),
                isMultiplierEligible := eligible }
    else
      let neededRank := deduceRankFromAircraft sub.aircraft
      if !canFlyLeg pilot.rank neededRank then FileOutcome.rankBlocked neededRank
      else FileOutcome.filed base

/-! ## Duty lifecycle -/

/-- Response of the duty-start endpoint. -/
inductive StartDutyOutcome
  | alreadyOnDuty
  | restRequired (minutesLeft : Int)
  | monthlyLimit
  | dailyLimit
  | rankBlocked (leg : Leg)
  | started (user : Pilot)
  deriving DecidableEq, Repr

/-- `POST /api/duty/start` (after the roster lookup): already-on-duty guard,
rest-period check with the remaining wait in minutes, monthly-hours
rollover, strict monthly and daily quota checks, the per-leg rank gate,
then the transition to ON_DUTY.  `monthAgo` abstracts the calendar value
`new Date()` one month before `now`. -/
def startDuty (now monthAgo : Int) (user : Pilot) (rosterId : Nat)
    (roster : Roster) : StartDutyOutcome :=
  if user.dutyStatus = DutyStatus.ON_DUTY then StartDutyOutcome.alreadyOnDuty
  else
    let afterRest : StartDutyOutcome :=
      let u1 := if user.lastHourReset < monthAgo then
          { user with monthlyFlightHours := 0, lastHourReset := now }
        else user
      if MAX_MONTHLY_FLIGHT_HOURS < u1.monthlyFlightHours + roster.totalFlightTime then
        StartDutyOutcome.monthlyLimit
      else if MAX_DAILY_FLIGHT_HOURS < u1.dailyFlightHours + roster.totalFlightTime then
        StartDutyOutcome.dailyLimit
      else
        match roster.legs.find? (fun l => !canFlyLeg u1.rank (getLegRequiredRank l)) with
        | some leg => StartDutyOutcome.rankBlocked leg
        | none =>
          StartDutyOutcome.started { u1 with
            dutyStatus := DutyStatus.ON_DUTY,
            currentRoster := some rosterId,
            lastDutyStart := some now }
    match user.lastDutyOff with
    | some t =>
      if now - t < MIN_REST_PERIOD then
        StartDutyOutcome.restRequired ((MIN_REST_PERIOD - (now - t) + 59999) / 60000)
      else afterRest
    | none => afterRest

/-- The `countDocuments` query of the duty-end handler: this pilot's
reports linked to the given roster with status PENDING or APPROVED. -/
def linkedFiledCount (allPireps : List Pirep) (pilotId rosterId : Nat) : Nat :=
  (allPireps.filter (fun p =>
    p.pilot == pilotId &&
    (match p.rosterLeg with
     | some (rid, _) => rid == rosterId
     | none => false) &&
    (p.status == PirepStatus.APPROVED || p.status == PirepStatus.PENDING))).length

/-- Response of the duty-end endpoint. -/
inductive EndDutyOutcome
  | notOnDuty
  | noRosterAssigned
  | incomplete (filed : Nat) (total : Nat)
  | ended (user : Pilot)
  deriving DecidableEq, Repr

/-- `POST /api/duty/end`: requires ON_DUTY with a resolvable bound roster; a
report (PENDING or APPROVED) linked to the roster is needed for every leg,
else a progress count is returned; on success the final leg's arrival
becomes `lastDutyAirport`, the pilot returns to ON_REST, the roster binding
and duty-start stamp are cleared, `lastDutyOff` is stamped and the daily
hours are zeroed. -/
def endDuty (now : Int) (findRoster : Nat → Option Roster) (allPireps : List Pirep)
    (user : Pilot) : EndDutyOutcome :=
  if user.dutyStatus ≠ DutyStatus.ON_DUTY then EndDutyOutcome.notOnDuty
  else
    match user.currentRoster with
    | none => EndDutyOutcome.noRosterAssigned
    | some rosterId =>
      match findRoster rosterId with
      | none => EndDutyOutcome.noRosterAssigned
      | some roster =>
        let filedPireps := linkedFiledCount allPireps user.id rosterId
        if filedPireps < roster.legs.length then
          EndDutyOutcome.incomplete filedPireps roster.legs.length
        else
          let u1 := match roster.legs.getLast? with
            | some finalLeg => { user with lastDutyAirport := some finalLeg.arrival }
            | none => user
          EndDutyOutcome.ended { u1 with
            dutyStatus := DutyStatus.ON_REST,
            currentRoster := none,
            lastDutyOff := some now,
            lastDutyStart := none,
            dailyFlightHours := 0 }

/-! ## Roster synthesis -/

/-- Group legs by departure airport: the bucket for airport `a`. -/
def legsByDeparture (allLegs : List Leg) (a : String) : List Leg :=
  allLegs.filter (fun l => l.departure == a)

/-- Insertion-order key list of the grouped map (`Object.keys`). -/
def firstOccurrences (l : List String) : List String :=
  l.foldl (fun acc a => if acc.contains a then acc else acc ++ [a]) []

/-- The inner roster-construction loop: up to `n` more legs, each drawn by
the injected random source `rng` from the unused legs out of the current
airport, stopping early when no eligible leg remains or the daily ceiling
would be exceeded.  Returns the legs chosen from this point on, paired
with the final cumulative flight time. -/
def buildLegs (allLegs : List Leg) (rng : Nat → Nat) :
    Nat → Nat → String → ℚ → List String → List Leg × ℚ
  | 0, _, _, totalTime, _ => ([], totalTime)
  | n + 1, j, currentAirport, totalTime, used =>
    let possible := (legsByDeparture allLegs currentAirport).filter
      (fun l => !used.contains l.flightNumber)
    match possible with
    | [] => ([], totalTime)
    | p :: ps =>
      let nextLeg := (p :: ps).getD (rng j % (p :: ps).length) p
      if MAX_DAILY_FLIGHT_HOURS < totalTime + nextLeg.flightTime then ([], totalTime)
      else
        let rest := buildLegs allLegs rng n (j + 1) nextLeg.arrival
          (totalTime + nextLeg.flightTime) (nextLeg.flightNumber :: used)
        (nextLeg :: rest.1, rest.2)

/-- Up to 3 candidate rosters for one departure airport; a candidate with a
randomized leg-count target in `[2,4]` is kept only when it accumulated at
least 2 legs, and receives a randomized bonus multiplier. -/
def rostersForAirport (allLegs : List Leg) (rngLC : Nat → Nat)
    (rng : Nat → Nat → Nat) (mult : Nat → ℚ) (departureAirport : String) : List Roster :=
  (List.range 3).filterMap (fun i =>
    let legCount := rngLC i % 3 + 2
    let result := buildLegs allLegs (rng i) legCount 0 departureAirport 0 []
    if 2 ≤ result.1.length then
      some { name := departureAirport ++ " Sector Duty #" ++ toString (i + 1),
             hub := departureAirport, legs := result.1, totalFlightTime := result.2,
             multiplier := mult i, isGenerated := true, isAvailable := true }
    else none)

/-- The full synthesis pass over every departure airport found in the leg
pool, with the random sources injected per airport and attempt. -/
def generateRosters (allLegs : List Leg) (rngLC : String → Nat → Nat)
    (rng : String → Nat → Nat → Nat) (mult : String → Nat → ℚ) : List Roster :=
  (firstOccurrences (allLegs.map (fun l => l.departure))).flatMap
    (fun a => rostersForAirport allLegs (rngLC a) (rng a) (mult a) a)

/-- The persistence step at the end of a generation run: only when at least
one roster was generated, delete every roster flagged `isGenerated` and
insert the new batch. -/
def persistGeneratedRosters (db newRosters : List Roster) : List Roster :=
  if 0 < newRosters.length then
    db.filter (fun r => !r.isGenerated) ++ newRosters
  else db

/-- One full generation run against a roster store: with no legs the store
is untouched and zero counts are reported; otherwise the synthesized batch
is persisted.  Returns the new store with the `{created, legsFound}`
counts. -/
def runGeneration (db : List Roster) (allLegs : List Leg) (rngLC : String → Nat → Nat)
    (rng : String → Nat → Nat → Nat) (mult : String → Nat → ℚ) :
    List Roster × Nat × Nat :=
  if allLegs.length = 0 then (db, 0, 0)
  else
    let gen := generateRosters allLegs rngLC rng mult
    (persistGeneratedRosters db gen, gen.length, allLegs.length)

/-- Explicit cascade form of `hoursTier`, scanning the eleven thresholds
from highest to lowest (proved equal to `hoursTier` below). -/
def hoursTierChar (h : ℚ) : Option String :=
  if 2300 ≤ h then some "Blue Legacy Commander"
  else if 1800 ≤ h then some "IndGo SkyMaster"
  else if 1400 ≤ h then some "Chief Flight Instructor"
  else if 1000 ≤ h then some "Line Instructor"
  else if 750 ≤ h then some "Blue Eagle"
  else if 500 ≤ h then some "Elite Captain"
  else if 300 ≤ h then some "Command Captain"
  else if 180 ≤ h then some "Skyline Officer"
  else if 100 ≤ h then some "Route Explorer"
  else if 50 ≤ h then some "Skyline Observer"
  else if 0 ≤ h then some "IndGo Cadet"
  else none

/-- The tier index the hours entitle, as an integer cascade (matches
`rankIndex` of the hours-derived tier; `-1` for negative hours). -/
def tierIdxChar (h : ℚ) : Int :=
  if 2300 ≤ h then 10
  else if 1800 ≤ h then 9
  else if 1400 ≤ h then 8
  else if 1000 ≤ h then 7
  else if 750 ≤ h then 6
  else if 500 ≤ h then 5
  else if 300 ≤ h then 4
  else if 180 ≤ h then 3
  else if 100 ≤ h then 2
  else if 50 ≤ h then 1
  else if 0 ≤ h then 0
  else -1

/-- Sum of the flight times of a list of legs. -/
def sumFT : List Leg → ℚ
  | [] => 0
  | l :: ls => l.flightTime + sumFT ls

/-- The legs form a connected chain that starts at airport `a`: each leg
departs where the previous one arrived. -/
def legsLinkFrom : String → List Leg → Prop
  | _, [] => True
  | a, l :: ls => l.departure = a ∧ legsLinkFrom l.arrival ls

/-! ## Concrete fixtures used by witnesses and counterexamples -/

/-- A leg AAAA → BBBB flown on an A320 in one hour. -/
def legAB : Leg :=
  { flightNumber := "IG101", departure := "AAAA", arrival := "BBBB",
    aircraft := "A320", flightTime := 1, rankUnlock := some "IndGo Cadet",
    carrier := "IndGo Air Virtual" }

/-- The return leg BBBB → AAAA. -/
def legBA : Leg :=
  { flightNumber := "IG102", departure := "BBBB", arrival := "AAAA",
    aircraft := "A320", flightTime := 1, rankUnlock := some "IndGo Cadet",
    carrier := "IndGo Air Virtual" }

/-- A leg whose explicit rank tag is invalid and whose aircraft matches no
family of the substring table. -/
def legUnknownRank : Leg :=
  { flightNumber := "XX901", departure := "AAAA", arrival := "BBBB",
    aircraft := "CESSNA 172", flightTime := 1, rankUnlock := some "Wing Commander",
    carrier := "IndGo Air Virtual" }

/-- A two-leg out-and-back generated roster. -/
def rosterAB : Roster :=
  { name := "AAAA Sector Duty #1", hub := "AAAA", legs := [legAB, legBA],
    totalFlightTime := 2, multiplier := 2, isAvailable := true, isGenerated := true }

/-- A roster containing the un-rankable leg. -/
def rosterUnknownRank : Roster :=
  { name := "AAAA Sector Duty #2", hub := "AAAA", legs := [legAB, legUnknownRank],
    totalFlightTime := 2, multiplier := 1, isAvailable := true, isGenerated := false }

/-- A manually created roster. -/
def rosterManual : Roster :=
  { name := "Manual duty", hub := "AAAA", legs := [legAB, legBA],
    totalFlightTime := 2, multiplier := 1, isAvailable := true, isGenerated := false }

/-- The roster store used by witnesses: roster id 1 is `rosterAB`, id 2 is
`rosterUnknownRank`, everything else is absent. -/
def findRosterAB : Nat → Option Roster := fun i =>
  if i = 1 then some rosterAB else if i = 2 then some rosterUnknownRank else none

/-- A fresh cadet pilot at rest. -/
def basePilot : Pilot :=
  { id := 1, rank := "IndGo Cadet", flightHours := 0,
    dutyStatus := DutyStatus.ON_REST, currentRoster := none,
    lastDutyStart := none, lastDutyOff := none, dailyFlightHours := 0,
    monthlyFlightHours := 0, lastHourReset := 0, lastKnownAirport := "VIDP",
    lastDutyAirport := none }

/-- A pending report for `legAB`, not linked to any roster. -/
def basePirep : Pirep :=
  { pilot := 1, flightNumber := "IG101", departure := "AAAA", arrival := "BBBB",
    aircraft := "A320", flightTime := 1, status := PirepStatus.PENDING,
    reviewedBy := none, rejectionReason := none, reviewedAt := none,
    isMultiplierEligible := false, rosterLeg := none }

/-- A pending multiplier-eligible report for the final leg of roster 1,
claiming 3 hours. -/
def pirepFinalLeg : Pirep :=
  { pilot := 1, flightNumber := "IG102", departure := "BBBB", arrival := "AAAA",
    aircraft := "A320", flightTime := 3, status := PirepStatus.PENDING,
    reviewedBy := none, rejectionReason := none, reviewedAt := none,
    isMultiplierEligible := true, rosterLeg := some (1, "IG102") }

/-- An already-approved copy of `basePirep`. -/
def pirepApproved : Pirep :=
  { pilot := 1, flightNumber := "IG101", departure := "AAAA", arrival := "BBBB",
    aircraft := "A320", flightTime := 1, status := PirepStatus.APPROVED,
    reviewedBy := some 2, rejectionReason := none, reviewedAt := some 50,
    isMultiplierEligible := false, rosterLeg := none }

/-- The cadet pilot on duty with roster 1 bound. -/
def pilotOnDuty : Pilot :=
  { id := 1, rank := "IndGo Cadet", flightHours := 0,
    dutyStatus := DutyStatus.ON_DUTY, currentRoster := some 1,
    lastDutyStart := some 10, lastDutyOff := none, dailyFlightHours := 0,
    monthlyFlightHours := 0, lastHourReset := 0, lastKnownAirport := "VIDP",
    lastDutyAirport := none }

/-- A pilot holding the Elite Captain rank with zero logged hours (for
example after a manual rank assignment). -/
def pilotHighRank : Pilot :=
  { id := 1, rank := "Elite Captain", flightHours := 0,
    dutyStatus := DutyStatus.ON_REST, currentRoster := none,
    lastDutyStart := none, lastDutyOff := none, dailyFlightHours := 0,
    monthlyFlightHours := 0, lastHourReset := 0, lastKnownAirport := "VIDP",
    lastDutyAirport := none }

/-- A rested pilot at the quota boundary: daily 8h, monthly 98h, last duty
ended at time 0. -/
def pilotRested : Pilot :=
  { id := 1, rank := "IndGo Cadet", flightHours := 50,
    dutyStatus := DutyStatus.ON_REST, currentRoster := none,
    lastDutyStart := none, lastDutyOff := some 0, dailyFlightHours := 8,
    monthlyFlightHours := 98, lastHourReset := 0, lastKnownAirport := "AAAA",
    lastDutyAirport := none }

/-- A pending report linked to leg one of roster 1. -/
def pirepLegOne : Pirep :=
  { pilot := 1, flightNumber := "IG101", departure := "AAAA", arrival := "BBBB",
    aircraft := "A320", flightTime := 1, status := PirepStatus.PENDING,
    reviewedBy := none, rejectionReason := none, reviewedAt := none,
    isMultiplierEligible := false, rosterLeg := some (1, "IG101") }

/-- A pending report linked to leg two of roster 1. -/
def pirepLegTwo : Pirep :=
  { pilot := 1, flightNumber := "IG102", departure := "BBBB", arrival := "AAAA",
    aircraft := "A320", flightTime := 1, status := PirepStatus.PENDING,
    reviewedBy := none, rejectionReason := none, reviewedAt := none,
    isMultiplierEligible := true, rosterLeg := some (1, "IG102") }

/-- A submission for leg one of roster 1 with the flight number in lower
case. -/
def subLowercase : PirepSubmission :=
  { flightNumber := "ig101", departure := "AAAA", arrival := "BBBB",
    aircraft := "A320", flightTime := 1 }

/-- A submission for leg one of roster 1 with the flight number cased
exactly as the stored report. -/
def subExact : PirepSubmission :=
  { flightNumber := "IG101", departure := "AAAA", arrival := "BBBB",
    aircraft := "A320", flightTime := 1 }

/-- Did the filing endpoint accept the report? -/
def isFiledOutcome : FileOutcome → Bool := fun o =>
  match o with
  | FileOutcome.filed _ => true
  | _ => false

/-! ## Helper lemmas -/

/-- The promotion check rewrites only the rank: the three hour ledgers are
untouched. -/
theorem rankUpdate_preserves_ledger (p : Pilot) :
    (checkAndApplyRankUpdate p).1.flightHours = p.flightHours ∧
    (checkAndApplyRankUpdate p).1.monthlyFlightHours = p.monthlyFlightHours ∧
    (checkAndApplyRankUpdate p).1.dailyFlightHours = p.dailyFlightHours := by
  simp only [checkAndApplyRankUpdate]
  split_ifs <;> simp

/-! ## C9: duration parsing -/

/-- C9: the duration parser maps the colon format "1:30" to 1.5 hours and
the letter-suffixed format "2h 15m" to 2.25 hours, while the bare number
"90" (no colon, no h/m suffix) is unparseable (`none`, the model of NaN);
consequently an otherwise well-formed primary row carrying duration "90"
is dropped during ingestion. -/
theorem c9_duration_parsing :
    convertTimeToDecimal "1:30" = some (3/2) ∧
    convertTimeToDecimal "2h 15m" = some (9/4) ∧
    convertTimeToDecimal "90" = none ∧
    legFromPrimaryRow "IG101" "AAAA Intl" "BBBB Intl" "A320" "90" = none := by
  refine ⟨?_, ?_, by decide, by decide⟩
  · simp +decide [convertTimeToDecimal, jsTrim, splitOnChar, pairHoursMinutes,
      jsParseInt, natOfDigits, isWs]
    norm_num
  · simp +decide [convertTimeToDecimal, jsTrim, digitsThen, natOfDigits, isWs,
      splitOnChar]
    norm_num

/-! ## C7: review endpoints refuse already-reviewed reports without mutation -/

/-- C7: invoking reject (or approve) on a report whose status is not
PENDING is refused as a conflict and leaves all state unchanged: the
returned report keeps its prior status, rejection reason, reviewer and
review timestamp, and the pilot record (hence every flight-hour ledger) is
returned unmodified. -/
theorem c7_review_conflict_no_mutation (findRoster : Nat → Option Roster)
    (reviewer : Nat) (now : Int) (reason : String) (pilot : Pilot) (pirep : Pirep)
    (hs : pirep.status ≠ PirepStatus.PENDING) (hr : reason ≠ "") :
    rejectPirep reason reviewer now pirep = (RejectOutcome.notPending, pirep) ∧
    approvePirep findRoster reviewer now pilot pirep
      = (ApproveOutcome.notPending, pilot, pirep) := by
  constructor
  · unfold rejectPirep
    rw [if_neg hr, if_pos hs]
  · unfold approvePirep
    rw [if_pos hs]

/-- Witness for C7 at a concrete already-approved report. -/
theorem c7_witness :
    rejectPirep "duplicate" 2 100 pirepApproved
      = (RejectOutcome.notPending, pirepApproved) ∧
    approvePirep findRosterAB 2 100 basePilot pirepApproved
      = (ApproveOutcome.notPending, basePilot, pirepApproved) :=
  c7_review_conflict_no_mutation findRosterAB 2 100 "duplicate" basePilot
    pirepApproved (by decide) (by decide)

/-! ## C2: hours awarded on approval -/

/-- C2: approving a PENDING report that is multiplier-eligible and whose
linked roster still resolves (its stored multiplier being at least 1, the
schema minimum) adds `claimedHours * roster.multiplier` to the pilot's
cumulative, monthly and daily flight-hour totals; approving any
non-eligible report, or one whose roster link is absent or no longer
resolvable, adds exactly `claimedHours` to all three totals. -/
theorem c2_approve_hours_award (findRoster : Nat → Option Roster) (reviewer : Nat)
    (now : Int) (pilot : Pilot) (pirep : Pirep)
    (hp : pirep.status = PirepStatus.PENDING) :
    (∀ rosterId fn roster,
        pirep.isMultiplierEligible = true →
        pirep.rosterLeg = some (rosterId, fn) →
        findRoster rosterId = some roster →
        1 ≤ roster.multiplier →
        ((approvePirep findRoster reviewer now pilot pirep).2.1.flightHours
            = pilot.flightHours + pirep.flightTime * roster.multiplier ∧
         (approvePirep findRoster reviewer now pilot pirep).2.1.monthlyFlightHours
            = pilot.monthlyFlightHours + pirep.flightTime * roster.multiplier ∧
         (approvePirep findRoster reviewer now pilot pirep).2.1.dailyFlightHours
            = pilot.dailyFlightHours + pirep.flightTime * roster.multiplier)) ∧
    ((pirep.isMultiplierEligible = false ∨ pirep.rosterLeg = none ∨
        (∀ rosterId fn, pirep.rosterLeg = some (rosterId, fn) → findRoster rosterId = none)) →
      ((approvePirep findRoster reviewer now pilot pirep).2.1.flightHours
          = pilot.flightHours + pirep.flightTime ∧
       (approvePirep findRoster reviewer now pilot pirep).2.1.monthlyFlightHours
          = pilot.monthlyFlightHours + pirep.flightTime ∧
       (approvePirep findRoster reviewer now pilot pirep).2.1.dailyFlightHours
          = pilot.dailyFlightHours + pirep.flightTime)) := by
  have hno : ¬ pirep.status ≠ PirepStatus.PENDING := by simp [hp]
  constructor
  · intro rosterId fn roster helig hleg hfind hm
    rcases lt_or_eq_of_le hm with h1 | h1
    · simp only [approvePirep, awardedHours, if_neg hno, helig, hleg, hfind, if_pos h1]
      simp [rankUpdate_preserves_ledger]
    · simp only [approvePirep, awardedHours, if_neg hno, helig, hleg, hfind, ← h1]
      simp [rankUpdate_preserves_ledger]
  · intro hcase
    rcases hcase with h | h | h
    · simp only [approvePirep, awardedHours, if_neg hno, h]
      simp [rankUpdate_preserves_ledger]
    · simp only [approvePirep, awardedHours, if_neg hno, h]
      simp [rankUpdate_preserves_ledger]
    · cases hrl : pirep.rosterLeg with
      | none =>
        simp only [approvePirep, awardedHours, if_neg hno, hrl]
        simp [rankUpdate_preserves_ledger]
      | some pr =>
        obtain ⟨rid, fn⟩ := pr
        have hf := h rid fn hrl
        simp only [approvePirep, awardedHours, if_neg hno, hrl, hf]
        simp [rankUpdate_preserves_ledger]

/-- Witness for C2: approving the multiplier-eligible final-leg report with
3 claimed hours against the roster with multiplier 2 credits 6 hours to
every ledger. -/
theorem c2_witness :
    (approvePirep findRosterAB 2 100 basePilot pirepFinalLeg).2.1.flightHours
      = basePilot.flightHours + pirepFinalLeg.flightTime * rosterAB.multiplier ∧
    (approvePirep findRosterAB 2 100 basePilot pirepFinalLeg).2.1.monthlyFlightHours
      = basePilot.monthlyFlightHours + pirepFinalLeg.flightTime * rosterAB.multiplier ∧
    (approvePirep findRosterAB 2 100 basePilot pirepFinalLeg).2.1.dailyFlightHours
      = basePilot.dailyFlightHours + pirepFinalLeg.flightTime * rosterAB.multiplier :=
  (c2_approve_hours_award findRosterAB 2 100 basePilot pirepFinalLeg rfl).1
    1 "IG102" rosterAB rfl rfl rfl (by norm_num [rosterAB])

/-! ## C5: duty-end completion gate -/

/-- C5: for an ON_DUTY pilot whose bound roster resolves, duty-end is
refused with a progress count while the number of the pilot's reports
linked to the roster with status PENDING or APPROVED is strictly below the
roster's leg count, and succeeds once that count equals the leg count; on
success `lastDutyAirport` becomes the final leg's arrival, the status
returns to ON_REST (the resting state), the roster binding and duty-start
stamp are cleared, `lastDutyOff` is stamped with the current time and the
daily flight hours are zeroed. -/
theorem c5_end_duty_completion_gate (now : Int) (findRoster : Nat → Option Roster)
    (allPireps : List Pirep) (user : Pilot) (rosterId : Nat) (roster : Roster)
    (hd : user.dutyStatus = DutyStatus.ON_DUTY)
    (hc : user.currentRoster = some rosterId)
    (hf : findRoster rosterId = some roster)
    (hne : roster.legs ≠ []) :
    (linkedFiledCount allPireps user.id rosterId < roster.legs.length →
      endDuty now findRoster allPireps user
        = EndDutyOutcome.incomplete (linkedFiledCount allPireps user.id rosterId)
            roster.legs.length) ∧
    (linkedFiledCount allPireps user.id rosterId = roster.legs.length →
      ∃ u, endDuty now findRoster allPireps user = EndDutyOutcome.ended u ∧
        u.lastDutyAirport = some ((roster.legs.getLast hne).arrival) ∧
        u.dutyStatus = DutyStatus.ON_REST ∧
        u.currentRoster = none ∧
        u.lastDutyOff = some now ∧
        u.lastDutyStart = none ∧
        u.dailyFlightHours = 0) := by
  have hnd : ¬ user.dutyStatus ≠ DutyStatus.ON_DUTY := by simp [hd]
  constructor
  · intro hlt
    simp only [endDuty, if_neg hnd, hc, hf, if_pos hlt]
  · intro heq
    have hnlt : ¬ linkedFiledCount allPireps user.id rosterId < roster.legs.length := by
      omega
    simp only [endDuty, if_neg hnd, hc, hf, if_neg hnlt,
      List.getLast?_eq_getLast _ hne]
    exact ⟨_, rfl, rfl, rfl, rfl, rfl, rfl, rfl⟩

/-! ## C4: duty-start rest and quota gates -/

/-- C4: with the pilot not already on duty and no monthly rollover due,
duty-start is refused with the rest denial exactly when the elapsed time
since `lastDutyOff` is strictly below the 8-hour minimum rest period, and
is never the rest denial once the elapsed time reaches it; past the rest
gate, it is refused with the monthly (resp. daily) denial exactly when
`monthlyFlightHours + roster.totalFlightTime` strictly exceeds 100 (resp.
`dailyFlightHours + roster.totalFlightTime` strictly exceeds 10), and is
refused by neither ceiling check when the sums are at (in particular,
exactly at) the ceilings. -/
theorem c4_start_duty_gates (now monthAgo : Int) (user : Pilot) (rosterId : Nat)
    (roster : Roster)
    (hnd : ¬ user.dutyStatus = DutyStatus.ON_DUTY)
    (hnr : ¬ user.lastHourReset < monthAgo) :
    (∀ t, user.lastDutyOff = some t → now - t < MIN_REST_PERIOD →
      startDuty now monthAgo user rosterId roster
        = StartDutyOutcome.restRequired ((MIN_REST_PERIOD - (now - t) + 59999) / 60000)) ∧
    ((∀ t, user.lastDutyOff = some t → MIN_REST_PERIOD ≤ now - t) →
      ((∀ m, startDuty now monthAgo user rosterId roster ≠ StartDutyOutcome.restRequired m) ∧
       (MAX_MONTHLY_FLIGHT_HOURS < user.monthlyFlightHours + roster.totalFlightTime →
         startDuty now monthAgo user rosterId roster = StartDutyOutcome.monthlyLimit) ∧
       (user.monthlyFlightHours + roster.totalFlightTime ≤ MAX_MONTHLY_FLIGHT_HOURS →
         MAX_DAILY_FLIGHT_HOURS < user.dailyFlightHours + roster.totalFlightTime →
         startDuty now monthAgo user rosterId roster = StartDutyOutcome.dailyLimit) ∧
       (user.monthlyFlightHours + roster.totalFlightTime ≤ MAX_MONTHLY_FLIGHT_HOURS →
         user.dailyFlightHours + roster.totalFlightTime ≤ MAX_DAILY_FLIGHT_HOURS →
         startDuty now monthAgo user rosterId roster ≠ StartDutyOutcome.monthlyLimit ∧
         startDuty now monthAgo user rosterId roster ≠ StartDutyOutcome.dailyLimit))) := by
  constructor
  · intro t ht hlt
    simp only [startDuty, if_neg hnd, ht]
    rw [if_pos hlt]
  · intro hrest
    have key : startDuty now monthAgo user rosterId roster =
        (if MAX_MONTHLY_FLIGHT_HOURS < user.monthlyFlightHours + roster.totalFlightTime then
          StartDutyOutcome.monthlyLimit
        else if MAX_DAILY_FLIGHT_HOURS < user.dailyFlightHours + roster.totalFlightTime then
          StartDutyOutcome.dailyLimit
        else
          match roster.legs.find? (fun l => !canFlyLeg user.rank (getLegRequiredRank l)) with
          | some leg => StartDutyOutcome.rankBlocked leg
          | none =>
            StartDutyOutcome.started { user with
              dutyStatus := DutyStatus.ON_DUTY,
              currentRoster := some rosterId,
              lastDutyStart := some now }) := by
      simp only [startDuty, if_neg hnd, if_neg hnr]
      cases hldo : user.lastDutyOff with
      | none => rfl
      | some t => simp [not_lt.mpr (hrest t hldo)]
    refine ⟨?_, ?_, ?_, ?_⟩
    · intro m
      rw [key]
      split_ifs
      · simp
      · simp
      · cases roster.legs.find? (fun l => !canFlyLeg user.rank (getLegRequiredRank l)) <;> simp
    · intro hm
      rw [key, if_pos hm]
    · intro hmle hdgt
      rw [key, if_neg (not_lt.mpr hmle), if_pos hdgt]
    · intro hmle hdle
      constructor
      · rw [key, if_neg (not_lt.mpr hmle), if_neg (not_lt.mpr hdle)]
        cases roster.legs.find? (fun l => !canFlyLeg user.rank (getLegRequiredRank l)) <;> simp
      · rw [key, if_neg (not_lt.mpr hmle), if_neg (not_lt.mpr hdle)]
        cases roster.legs.find? (fun l => !canFlyLeg user.rank (getLegRequiredRank l)) <;> simp

/-- Witness for C5: with a report filed for each of the two roster legs,
duty-end succeeds and resets the duty state as claimed. -/
theorem c5_witness :
    ∃ u, endDuty 999 findRosterAB [pirepLegOne, pirepLegTwo] pilotOnDuty
        = EndDutyOutcome.ended u ∧
      u.lastDutyAirport = some ((rosterAB.legs.getLast (by decide)).arrival) ∧
      u.dutyStatus = DutyStatus.ON_REST ∧
      u.currentRoster = none ∧
      u.lastDutyOff = some 999 ∧
      u.lastDutyStart = none ∧
      u.dailyFlightHours = 0 :=
  (c5_end_duty_completion_gate 999 findRosterAB [pirepLegOne, pirepLegTwo]
      pilotOnDuty 1 rosterAB rfl rfl rfl (by decide)).2 (by decide)

/-- Witness for C4: at exactly the 8-hour rest boundary with the monthly
total landing exactly on 100 and the daily total exactly on 10, the two
ceiling checks do not refuse duty-start. -/
theorem c4_witness :
    startDuty MIN_REST_PERIOD (-1) pilotRested 1 rosterAB ≠ StartDutyOutcome.monthlyLimit ∧
    startDuty MIN_REST_PERIOD (-1) pilotRested 1 rosterAB ≠ StartDutyOutcome.dailyLimit :=
  ((c4_start_duty_gates MIN_REST_PERIOD (-1) pilotRested 1 rosterAB (by decide) (by decide)).2
    (fun t ht => by
      have h0 : pilotRested.lastDutyOff = some 0 := rfl
      rw [h0] at ht
      have ht0 : t = 0 := (Option.some.inj ht).symm
      subst ht0
      decide)).2.2.2
    (by norm_num [pilotRested, rosterAB, MAX_MONTHLY_FLIGHT_HOURS])
    (by norm_num [pilotRested, rosterAB, MAX_DAILY_FLIGHT_HOURS])

/-! ## C10: unknown required rank fails closed -/

/-- C10: for a leg whose explicit rankUnlock tag is not a member of the
tier list and whose aircraft deduces to the "Unknown" sentinel (matching
no family of the substring table), `canFlyLeg` refuses every pilot rank,
and duty-start on any roster containing such a leg never succeeds,
whatever the pilot's state or rank. -/
theorem c10_unknown_rank_fails_closed (r : String) (leg : Leg)
    (hru : ∀ ru, leg.rankUnlock = some ru → pilotRanks.contains ru = false)
    (hac : deduceRankFromAircraft leg.aircraft = "Unknown") :
    canFlyLeg r (getLegRequiredRank leg) = false ∧
    (∀ (now monthAgo : Int) (user : Pilot) (rosterId : Nat) (roster : Roster),
      leg ∈ roster.legs →
      ∀ u, startDuty now monthAgo user rosterId roster ≠ StartDutyOutcome.started u) := by
  have hreq : getLegRequiredRank leg = "Unknown" := by
    unfold getLegRequiredRank
    cases hrl : leg.rankUnlock with
    | none => exact hac
    | some ru =>
      have hcontains : ¬ (pilotRanks.contains ru = true) := by
        rw [hru ru hrl]
        exact Bool.false_ne_true
      show (if pilotRanks.contains ru = true then ru
            else deduceRankFromAircraft leg.aircraft) = "Unknown"
      rw [if_neg hcontains]
      exact hac
  have hcf : ∀ q, canFlyLeg q "Unknown" = false := by
    intro q
    simp only [canFlyLeg]
    rw [show rankIndex "Unknown" = -1 from by decide]
    simp
  constructor
  · rw [hreq]
    exact hcf r
  · intro now monthAgo user rosterId roster hmem u heq
    have hfind : ∀ q, roster.legs.find?
        (fun l => !canFlyLeg q (getLegRequiredRank l)) ≠ none := by
      intro q hn
      have hleg := List.find?_eq_none.mp hn leg hmem
      rw [hreq, hcf q] at hleg
      simp at hleg
    simp only [startDuty] at heq
    repeat' split at heq
    any_goals exact StartDutyOutcome.noConfusion heq
    all_goals rename_i hf
    all_goals exact hfind _ hf

/-- Witness for C10: the leg tagged with the invalid rank "Wing Commander"
on a Cessna 172 blocks even the highest rank, and duty-start on the roster
containing it never succeeds. -/
theorem c10_witness :
    canFlyLeg "Blue Legacy Commander" (getLegRequiredRank legUnknownRank) = false ∧
    (∀ u, startDuty 0 0 pilotRested 2 rosterUnknownRank ≠ StartDutyOutcome.started u) := by
  have h := c10_unknown_rank_fails_closed "Blue Legacy Commander" legUnknownRank
    (by
      intro ru hru
      have h0 : legUnknownRank.rankUnlock = some "Wing Commander" := rfl
      rw [h0] at hru
      have hru2 : ru = "Wing Commander" := (Option.some.inj hru).symm
      subst hru2
      decide)
    (by decide)
  exact ⟨h.1, fun u => h.2 0 0 pilotRested 2 rosterUnknownRank
    (by simp [rosterUnknownRank]) u⟩

/-! ## C6: duplicate-leg filing guard -/

/-- C6 as stated is false: the duplicate guard queries the submitted flight
number with exact (case-sensitive) string equality while leg matching is
case-insensitive, so re-filing the same roster leg with a lower-case
flight number is accepted.  Here `pirepLegOne` is this pilot's existing
report for roster 1 leg "IG101", the new submission names the same leg as
"ig101" (identical up to case), and the filing succeeds instead of being
rejected. -/
theorem c6_counterexample :
    pirepLegOne.pilot = pilotOnDuty.id ∧
    pirepLegOne.rosterLeg = some (1, "IG101") ∧
    jsToUpper subLowercase.flightNumber = "IG101" ∧
    isFiledOutcome (filePirep findRosterAB [pirepLegOne] pilotOnDuty subLowercase) = true := by
  decide

/-- C6 (amended): while on duty with a bound roster, a second report whose
submitted flight number matches an existing report's stored
`(rosterId, flightNumber)` link for this pilot with identical letter case
is always rejected — whatever the first report's status (the duplicate
query has no status filter); submissions differing only in letter case can
evade the duplicate guard. -/
theorem c6_amended_duplicate_guard (findRoster : Nat → Option Roster)
    (allPireps : List Pirep) (pilot : Pilot) (sub : PirepSubmission)
    (rosterId : Nat)
    (hd : pilot.dutyStatus = DutyStatus.ON_DUTY)
    (hc : pilot.currentRoster = some rosterId)
    (hdup : ∃ p ∈ allPireps, p.pilot = pilot.id ∧
      p.rosterLeg = some (rosterId, sub.flightNumber)) :
    ∀ q, filePirep findRoster allPireps pilot sub ≠ FileOutcome.filed q := by
  intro q heq
  obtain ⟨p, hpmem, hpid, hpleg⟩ := hdup
  have hany : (allPireps.any (fun pp =>
      pp.pilot == pilot.id && pp.rosterLeg == some (rosterId, sub.flightNumber))) = true := by
    refine List.any_eq_true.mpr ⟨p, hpmem, ?_⟩
    simp [hpid, hpleg]
  simp only [filePirep, hd, hc, if_true] at heq
  repeat' split at heq
  all_goals exact FileOutcome.noConfusion heq

/-- Witness for the amended C6: re-filing roster 1 leg "IG101" with the
identically-cased flight number is rejected whatever the outcome sought. -/
theorem c6_amended_witness :
    isFiledOutcome (filePirep findRosterAB [pirepLegOne] pilotOnDuty subExact) = false := by
  have h := c6_amended_duplicate_guard findRosterAB [pirepLegOne] pilotOnDuty subExact 1
    rfl rfl ⟨pirepLegOne, by simp, rfl, rfl⟩
  cases ho : filePirep findRosterAB [pirepLegOne] pilotOnDuty subExact
  all_goals first
    | rfl
    | exact absurd ho (h _)

/-! ## C8: generated-roster replacement -/

/-- C8 as stated is false: the deletion of previously generated rosters is
guarded by `generatedRosters.length > 0`, so a run that produces zero new
rosters leaves the old auto-generated rosters in place instead of
replacing them.  Here the store holds the generated roster `rosterAB`, the
leg pool has a single leg (no 2-leg candidate can be built, so the run
creates 0 rosters), and the store is returned unchanged with the stale
generated roster still present. -/
theorem c8_counterexample :
    rosterAB.isGenerated = true ∧
    (runGeneration [rosterAB] [legAB] (fun _ _ => 0) (fun _ _ _ => 0) (fun _ _ => 1)).2.1 = 0 ∧
    (runGeneration [rosterAB] [legAB] (fun _ _ => 0) (fun _ _ _ => 0) (fun _ _ => 1)).1
      = [rosterAB] := by
  refine ⟨rfl, ?_, ?_⟩ <;>
    norm_num +decide [runGeneration, generateRosters, rostersForAirport, buildLegs,
      legsByDeparture, firstOccurrences, persistGeneratedRosters, legAB, rosterAB]

/-- C8 (amended): a generation run replaces the generated rosters (deleting
exactly those flagged `isGenerated` and inserting the new batch) only when
it produced at least one roster; a run that produces zero rosters leaves
the store untouched.  Manually created rosters are preserved by every
run. -/
theorem c8_amended_generation_replacement (db : List Roster) (allLegs : List Leg)
    (rngLC : String → Nat → Nat) (rng : String → Nat → Nat → Nat)
    (mult : String → Nat → ℚ) :
    ((runGeneration db allLegs rngLC rng mult).2.1 = 0 →
      (runGeneration db allLegs rngLC rng mult).1 = db) ∧
    (0 < (runGeneration db allLegs rngLC rng mult).2.1 →
      (runGeneration db allLegs rngLC rng mult).1
        = db.filter (fun r => !r.isGenerated) ++ generateRosters allLegs rngLC rng mult) ∧
    (∀ r ∈ db, r.isGenerated = false →
      r ∈ (runGeneration db allLegs rngLC rng mult).1) := by
  by_cases h0 : allLegs.length = 0
  · simp [runGeneration, h0]
    exact fun r hr _ => hr
  · simp only [runGeneration, if_neg h0]
    refine ⟨?_, ?_, ?_⟩
    · intro hlen
      unfold persistGeneratedRosters
      rw [if_neg (by omega)]
    · intro hlen
      unfold persistGeneratedRosters
      rw [if_pos hlen]
    · intro r hr hgenr
      unfold persistGeneratedRosters
      split_ifs with h
      · exact List.mem_append_left _ (List.mem_filter.mpr ⟨hr, by simp [hgenr]⟩)
      · exact hr

/-- Witness for the amended C8: a run over an empty leg pool creates zero
rosters and leaves the store (one generated, one manual roster) unchanged,
with the manual roster still present. -/
theorem c8_amended_witness :
    (runGeneration [rosterAB, rosterManual] [] (fun _ _ => 0) (fun _ _ _ => 0)
        (fun _ _ => 1)).1 = [rosterAB, rosterManual] ∧
    rosterManual ∈ (runGeneration [rosterAB, rosterManual] [] (fun _ _ => 0)
        (fun _ _ _ => 0) (fun _ _ => 1)).1 :=
  ⟨(c8_amended_generation_replacement [rosterAB, rosterManual] [] (fun _ _ => 0)
      (fun _ _ _ => 0) (fun _ _ => 1)).1 rfl,
   (c8_amended_generation_replacement [rosterAB, rosterManual] [] (fun _ _ => 0)
      (fun _ _ _ => 0) (fun _ _ => 1)).2.2 rosterManual (by simp) rfl⟩

/-! ## C1: invariants of generated rosters -/

/-- A list element fetched by `getD` with a default that is itself a member
stays in the list. -/
theorem getD_mem_of_mem {α : Type} {l : List α} {d : α} (hd : d ∈ l) (n : Nat) :
    l.getD n d ∈ l := by
  rcases h : l.get? n with _ | x
  · rw [List.getD_eq_getD_get?, h]
    exact hd
  · rw [List.getD_eq_getD_get?, h]
    exact List.get?_mem h

/-- Members of a departure bucket depart from that airport. -/
theorem mem_legsByDeparture {allLegs : List Leg} {a : String} {l : Leg}
    (h : l ∈ legsByDeparture allLegs a) : l.departure = a := by
  simp only [legsByDeparture, List.mem_filter] at h
  simpa using h.2

/-- The construction loop yields a chain from the start airport, returns
the exact cumulative flight time of the chosen legs, and never exceeds the
daily ceiling it started under. -/
theorem buildLegs_invariants (allLegs : List Leg) (rng : Nat → Nat) :
    ∀ (n j : Nat) (cur : String) (total : ℚ) (used : List String),
      legsLinkFrom cur (buildLegs allLegs rng n j cur total used).1 ∧
      (buildLegs allLegs rng n j cur total used).2
        = total + sumFT (buildLegs allLegs rng n j cur total used).1 ∧
      (total ≤ MAX_DAILY_FLIGHT_HOURS →
        (buildLegs allLegs rng n j cur total used).2 ≤ MAX_DAILY_FLIGHT_HOURS) := by
  intro n
  induction n with
  | zero =>
    intro j cur total used
    simp [buildLegs, legsLinkFrom, sumFT]
  | succ n ih =>
    intro j cur total used
    simp only [buildLegs]
    cases hps : (legsByDeparture allLegs cur).filter
        (fun l => !used.contains l.flightNumber) with
    | nil => simp [legsLinkFrom, sumFT]
    | cons p ps =>
      dsimp only
      set x := (p :: ps).getD (rng j % (p :: ps).length) p with hxdef
      have hx_mem : x ∈ p :: ps := getD_mem_of_mem (List.mem_cons_self p ps) _
      have hx_mem2 := hx_mem
      rw [← hps] at hx_mem2
      have hdep : x.departure = cur :=
        mem_legsByDeparture (List.mem_of_mem_filter hx_mem2)
      by_cases hover : MAX_DAILY_FLIGHT_HOURS < total + x.flightTime
      · rw [if_pos hover]
        simp [legsLinkFrom, sumFT]
      · rw [if_neg hover]
        obtain ⟨ih1, ih2, ih3⟩ := ih (j + 1) x.arrival (total + x.flightTime)
          (x.flightNumber :: used)
        refine ⟨⟨hdep, ih1⟩, ?_, ?_⟩
        · simp only [sumFT, ih2]
          ring
        · intro hto
          exact ih3 (not_lt.mp hover)

/-- A chain from a fixed start airport gives the consecutive
arrival-equals-departure property. -/
theorem legsLinkFrom_chain : ∀ (a : String) (legs : List Leg),
    legsLinkFrom a legs → List.Chain' (fun x y => x.arrival = y.departure) legs := by
  intro a legs
  induction legs generalizing a with
  | nil => intro _; exact List.chain'_nil
  | cons l ls ih =>
    intro h
    obtain ⟨hdep, hrest⟩ := h
    cases ls with
    | nil => exact List.chain'_singleton _
    | cons l2 ls2 =>
      rw [List.chain'_cons]
      exact ⟨hrest.1.symm, ih l.arrival hrest⟩

/-- C1: every roster produced by the synthesizer has at least 2 legs,
consecutive legs satisfy `legs[i].arrival = legs[i+1].departure`, its
stored `totalFlightTime` equals the sum of its legs' flight times
(exactly, in the idealized rational arithmetic), and that total is at most
the 10-hour daily ceiling. -/
theorem c1_generated_roster_invariants (allLegs : List Leg)
    (rngLC : String → Nat → Nat) (rng : String → Nat → Nat → Nat)
    (mult : String → Nat → ℚ) (r : Roster)
    (hr : r ∈ generateRosters allLegs rngLC rng mult) :
    2 ≤ r.legs.length ∧
    List.Chain' (fun x y => x.arrival = y.departure) r.legs ∧
    r.totalFlightTime = sumFT r.legs ∧
    r.totalFlightTime ≤ MAX_DAILY_FLIGHT_HOURS := by
  simp only [generateRosters, List.mem_flatMap] at hr
  obtain ⟨a, _, hr⟩ := hr
  simp only [rostersForAirport, List.mem_filterMap] at hr
  obtain ⟨i, _, hi⟩ := hr
  by_cases hlen : 2 ≤ (buildLegs allLegs (rng a i) (rngLC a i % 3 + 2) 0 a 0 []).1.length
  · rw [if_pos hlen] at hi
    obtain rfl := Option.some.inj hi
    obtain ⟨h1, h2, h3⟩ := buildLegs_invariants allLegs (rng a i) (rngLC a i % 3 + 2) 0 a 0 []
    refine ⟨hlen, legsLinkFrom_chain a _ h1, ?_, ?_⟩
    · simpa using h2
    · exact h3 (by norm_num [MAX_DAILY_FLIGHT_HOURS])
  · rw [if_neg hlen] at hi
    exact Option.noConfusion hi

/-- Witness for C1: with the two-leg pool out of AAAA and constant random
sources, the synthesizer produces exactly the roster `rosterAB`, which
satisfies all four invariants. -/
theorem c1_witness :
    2 ≤ rosterAB.legs.length ∧
    List.Chain' (fun x y => x.arrival = y.departure) rosterAB.legs ∧
    rosterAB.totalFlightTime = sumFT rosterAB.legs ∧
    rosterAB.totalFlightTime ≤ MAX_DAILY_FLIGHT_HOURS :=
  c1_generated_roster_invariants [legAB, legBA] (fun _ _ => 0) (fun _ _ _ => 0)
    (fun _ _ => 2) rosterAB
    (by norm_num +decide [generateRosters, rostersForAirport, buildLegs,
      legsByDeparture, firstOccurrences, legAB, legBA, rosterAB])

/-! ## C3: rank evolution under approvals -/

/-- Scan step, positive case: a satisfied threshold at the head is
returned. -/
theorem findTier_pos (h : ℚ) (name : String) (rest : List String)
    (hth : rankThreshold name ≤ h) :
    List.find? (fun rn => decide (rankThreshold rn ≤ h)) (name :: rest) = some name :=
  List.find?_cons_of_pos _ (decide_eq_true hth)

/-- Scan step, negative case: an unsatisfied threshold at the head is
skipped. -/
theorem findTier_neg (h : ℚ) (name : String) (rest : List String)
    (hth : ¬ rankThreshold name ≤ h) :
    List.find? (fun rn => decide (rankThreshold rn ≤ h)) (name :: rest)
      = List.find? (fun rn => decide (rankThreshold rn ≤ h)) rest :=
  List.find?_cons_of_neg _ (fun hc => hth (of_decide_eq_true hc))

/-- The top-down threshold scan of `checkAndApplyRankUpdate` equals the
explicit threshold cascade. -/
theorem hoursTier_eq (h : ℚ) : hoursTier h = hoursTierChar h := by
  unfold hoursTier hoursTierChar
  rw [show pilotRanks.reverse = ["Blue Legacy Commander", "IndGo SkyMaster",
    "Chief Flight Instructor", "Line Instructor", "Blue Eagle", "Elite Captain",
    "Command Captain", "Skyline Officer", "Route Explorer", "Skyline Observer",
    "IndGo Cadet"] from rfl]
  by_cases h1 : (2300:ℚ) ≤ h
  · rw [findTier_pos h "Blue Legacy Commander" _ (by exact h1), if_pos h1]
  · rw [findTier_neg h "Blue Legacy Commander" _ (by exact h1), if_neg h1]
    by_cases h2 : (1800:ℚ) ≤ h
    · rw [findTier_pos h "IndGo SkyMaster" _ (by exact h2), if_pos h2]
    · rw [findTier_neg h "IndGo SkyMaster" _ (by exact h2), if_neg h2]
      by_cases h3 : (1400:ℚ) ≤ h
      · rw [findTier_pos h "Chief Flight Instructor" _ (by exact h3), if_pos h3]
      · rw [findTier_neg h "Chief Flight Instructor" _ (by exact h3), if_neg h3]
        by_cases h4 : (1000:ℚ) ≤ h
        · rw [findTier_pos h "Line Instructor" _ (by exact h4), if_pos h4]
        · rw [findTier_neg h "Line Instructor" _ (by exact h4), if_neg h4]
          by_cases h5 : (750:ℚ) ≤ h
          · rw [findTier_pos h "Blue Eagle" _ (by exact h5), if_pos h5]
          · rw [findTier_neg h "Blue Eagle" _ (by exact h5), if_neg h5]
            by_cases h6 : (500:ℚ) ≤ h
            · rw [findTier_pos h "Elite Captain" _ (by exact h6), if_pos h6]
            · rw [findTier_neg h "Elite Captain" _ (by exact h6), if_neg h6]
              by_cases h7 : (300:ℚ) ≤ h
              · rw [findTier_pos h "Command Captain" _ (by exact h7), if_pos h7]
              · rw [findTier_neg h "Command Captain" _ (by exact h7), if_neg h7]
                by_cases h8 : (180:ℚ) ≤ h
                · rw [findTier_pos h "Skyline Officer" _ (by exact h8), if_pos h8]
                · rw [findTier_neg h "Skyline Officer" _ (by exact h8), if_neg h8]
                  by_cases h9 : (100:ℚ) ≤ h
                  · rw [findTier_pos h "Route Explorer" _ (by exact h9), if_pos h9]
                  · rw [findTier_neg h "Route Explorer" _ (by exact h9), if_neg h9]
                    by_cases h10 : (50:ℚ) ≤ h
                    · rw [findTier_pos h "Skyline Observer" _ (by exact h10), if_pos h10]
                    · rw [findTier_neg h "Skyline Observer" _ (by exact h10), if_neg h10]
                      by_cases h11 : (0:ℚ) ≤ h
                      · rw [findTier_pos h "IndGo Cadet" _ (by exact h11), if_pos h11]
                      · rw [findTier_neg h "IndGo Cadet" _ (by exact h11), if_neg h11]
                        rfl

/-- For non-negative hours the cascade yields a tier. -/
theorem hoursTierChar_isSome (h : ℚ) (h0 : 0 ≤ h) :
    ∃ r, hoursTierChar h = some r := by
  unfold hoursTierChar
  by_cases g1 : (2300:ℚ) ≤ h
  · rw [if_pos g1]
    exact ⟨_, rfl⟩
  · rw [if_neg g1]
    by_cases g2 : (1800:ℚ) ≤ h
    · rw [if_pos g2]
      exact ⟨_, rfl⟩
    · rw [if_neg g2]
      by_cases g3 : (1400:ℚ) ≤ h
      · rw [if_pos g3]
        exact ⟨_, rfl⟩
      · rw [if_neg g3]
        by_cases g4 : (1000:ℚ) ≤ h
        · rw [if_pos g4]
          exact ⟨_, rfl⟩
        · rw [if_neg g4]
          by_cases g5 : (750:ℚ) ≤ h
          · rw [if_pos g5]
            exact ⟨_, rfl⟩
          · rw [if_neg g5]
            by_cases g6 : (500:ℚ) ≤ h
            · rw [if_pos g6]
              exact ⟨_, rfl⟩
            · rw [if_neg g6]
              by_cases g7 : (300:ℚ) ≤ h
              · rw [if_pos g7]
                exact ⟨_, rfl⟩
              · rw [if_neg g7]
                by_cases g8 : (180:ℚ) ≤ h
                · rw [if_pos g8]
                  exact ⟨_, rfl⟩
                · rw [if_neg g8]
                  by_cases g9 : (100:ℚ) ≤ h
                  · rw [if_pos g9]
                    exact ⟨_, rfl⟩
                  · rw [if_neg g9]
                    by_cases g10 : (50:ℚ) ≤ h
                    · rw [if_pos g10]
                      exact ⟨_, rfl⟩
                    · rw [if_neg g10]
                      by_cases g11 : (0:ℚ) ≤ h
                      · rw [if_pos g11]
                        exact ⟨_, rfl⟩
                      · exact absurd h0 g11

/-- Lower bounds on the integer tier cascade from threshold facts. -/
theorem tierIdxChar_lb (h : ℚ) :
    (-1 ≤ tierIdxChar h) ∧
    (0 ≤ h → 0 ≤ tierIdxChar h) ∧
    (50 ≤ h → 1 ≤ tierIdxChar h) ∧
    (100 ≤ h → 2 ≤ tierIdxChar h) ∧
    (180 ≤ h → 3 ≤ tierIdxChar h) ∧
    (300 ≤ h → 4 ≤ tierIdxChar h) ∧
    (500 ≤ h → 5 ≤ tierIdxChar h) ∧
    (750 ≤ h → 6 ≤ tierIdxChar h) ∧
    (1000 ≤ h → 7 ≤ tierIdxChar h) ∧
    (1400 ≤ h → 8 ≤ tierIdxChar h) ∧
    (1800 ≤ h → 9 ≤ tierIdxChar h) ∧
    (2300 ≤ h → 10 ≤ tierIdxChar h) := by
  unfold tierIdxChar
  by_cases g1 : (2300:ℚ) ≤ h
  · rw [if_pos g1]
    refine ⟨by decide, ?_, ?_, ?_, ?_, ?_, ?_, ?_, ?_, ?_, ?_, ?_⟩ <;> intro hx <;>
      first
      | decide
      | linarith
  · rw [if_neg g1]
    by_cases g2 : (1800:ℚ) ≤ h
    · rw [if_pos g2]
      refine ⟨by decide, ?_, ?_, ?_, ?_, ?_, ?_, ?_, ?_, ?_, ?_, ?_⟩ <;> intro hx <;>
        first
        | decide
        | linarith
    · rw [if_neg g2]
      by_cases g3 : (1400:ℚ) ≤ h
      · rw [if_pos g3]
        refine ⟨by decide, ?_, ?_, ?_, ?_, ?_, ?_, ?_, ?_, ?_, ?_, ?_⟩ <;> intro hx <;>
          first
          | decide
          | linarith
      · rw [if_neg g3]
        by_cases g4 : (1000:ℚ) ≤ h
        · rw [if_pos g4]
          refine ⟨by decide, ?_, ?_, ?_, ?_, ?_, ?_, ?_, ?_, ?_, ?_, ?_⟩ <;> intro hx <;>
            first
            | decide
            | linarith
        · rw [if_neg g4]
          by_cases g5 : (750:ℚ) ≤ h
          · rw [if_pos g5]
            refine ⟨by decide, ?_, ?_, ?_, ?_, ?_, ?_, ?_, ?_, ?_, ?_, ?_⟩ <;> intro hx <;>
              first
              | decide
              | linarith
          · rw [if_neg g5]
            by_cases g6 : (500:ℚ) ≤ h
            · rw [if_pos g6]
              refine ⟨by decide, ?_, ?_, ?_, ?_, ?_, ?_, ?_, ?_, ?_, ?_, ?_⟩ <;> intro hx <;>
                first
                | decide
                | linarith
            · rw [if_neg g6]
              by_cases g7 : (300:ℚ) ≤ h
              · rw [if_pos g7]
                refine ⟨by decide, ?_, ?_, ?_, ?_, ?_, ?_, ?_, ?_, ?_, ?_, ?_⟩ <;> intro hx <;>
                  first
                  | decide
                  | linarith
              · rw [if_neg g7]
                by_cases g8 : (180:ℚ) ≤ h
                · rw [if_pos g8]
                  refine ⟨by decide, ?_, ?_, ?_, ?_, ?_, ?_, ?_, ?_, ?_, ?_, ?_⟩ <;> intro hx <;>
                    first
                    | decide
                    | linarith
                · rw [if_neg g8]
                  by_cases g9 : (100:ℚ) ≤ h
                  · rw [if_pos g9]
                    refine ⟨by decide, ?_, ?_, ?_, ?_, ?_, ?_, ?_, ?_, ?_, ?_, ?_⟩ <;> intro hx <;>
                      first
                      | decide
                      | linarith
                  · rw [if_neg g9]
                    by_cases g10 : (50:ℚ) ≤ h
                    · rw [if_pos g10]
                      refine ⟨by decide, ?_, ?_, ?_, ?_, ?_, ?_, ?_, ?_, ?_, ?_, ?_⟩ <;> intro hx <;>
                        first
                        | decide
                        | linarith
                    · rw [if_neg g10]
                      by_cases g11 : (0:ℚ) ≤ h
                      · rw [if_pos g11]
                        refine ⟨by decide, ?_, ?_, ?_, ?_, ?_, ?_, ?_, ?_, ?_, ?_, ?_⟩ <;> intro hx <;>
                          first
                          | decide
                          | linarith
                      · rw [if_neg g11]
                        refine ⟨by decide, ?_, ?_, ?_, ?_, ?_, ?_, ?_, ?_, ?_, ?_, ?_⟩ <;> intro hx <;>
                          first
                          | decide
                          | linarith

/-- The integer tier cascade is monotone in the hours. -/
theorem tierIdxChar_mono {h1 h2 : ℚ} (hle : h1 ≤ h2) :
    tierIdxChar h1 ≤ tierIdxChar h2 := by
  obtain ⟨b0, c0, c50, c100, c180, c300, c500, c750, c1000, c1400, c1800, c2300⟩ :=
    tierIdxChar_lb h2
  by_cases g1 : (2300:ℚ) ≤ h1
  · have hv : tierIdxChar h1 = 10 := by
      unfold tierIdxChar
      rw [if_pos g1]
    rw [hv]
    exact c2300 (by linarith)
  · by_cases g2 : (1800:ℚ) ≤ h1
    · have hv : tierIdxChar h1 = 9 := by
        unfold tierIdxChar
        rw [if_neg g1, if_pos g2]
      rw [hv]
      exact c1800 (by linarith)
    · by_cases g3 : (1400:ℚ) ≤ h1
      · have hv : tierIdxChar h1 = 8 := by
          unfold tierIdxChar
          rw [if_neg g1, if_neg g2, if_pos g3]
        rw [hv]
        exact c1400 (by linarith)
      · by_cases g4 : (1000:ℚ) ≤ h1
        · have hv : tierIdxChar h1 = 7 := by
            unfold tierIdxChar
            rw [if_neg g1, if_neg g2, if_neg g3, if_pos g4]
          rw [hv]
          exact c1000 (by linarith)
        · by_cases g5 : (750:ℚ) ≤ h1
          · have hv : tierIdxChar h1 = 6 := by
              unfold tierIdxChar
              rw [if_neg g1, if_neg g2, if_neg g3, if_neg g4, if_pos g5]
            rw [hv]
            exact c750 (by linarith)
          · by_cases g6 : (500:ℚ) ≤ h1
            · have hv : tierIdxChar h1 = 5 := by
                unfold tierIdxChar
                rw [if_neg g1, if_neg g2, if_neg g3, if_neg g4, if_neg g5, if_pos g6]
              rw [hv]
              exact c500 (by linarith)
            · by_cases g7 : (300:ℚ) ≤ h1
              · have hv : tierIdxChar h1 = 4 := by
                  unfold tierIdxChar
                  rw [if_neg g1, if_neg g2, if_neg g3, if_neg g4, if_neg g5, if_neg g6, if_pos g7]
                rw [hv]
                exact c300 (by linarith)
              · by_cases g8 : (180:ℚ) ≤ h1
                · have hv : tierIdxChar h1 = 3 := by
                    unfold tierIdxChar
                    rw [if_neg g1, if_neg g2, if_neg g3, if_neg g4, if_neg g5, if_neg g6, if_neg g7, if_pos g8]
                  rw [hv]
                  exact c180 (by linarith)
                · by_cases g9 : (100:ℚ) ≤ h1
                  · have hv : tierIdxChar h1 = 2 := by
                      unfold tierIdxChar
                      rw [if_neg g1, if_neg g2, if_neg g3, if_neg g4, if_neg g5, if_neg g6, if_neg g7, if_neg g8, if_pos g9]
                    rw [hv]
                    exact c100 (by linarith)
                  · by_cases g10 : (50:ℚ) ≤ h1
                    · have hv : tierIdxChar h1 = 1 := by
                        unfold tierIdxChar
                        rw [if_neg g1, if_neg g2, if_neg g3, if_neg g4, if_neg g5, if_neg g6, if_neg g7, if_neg g8, if_neg g9, if_pos g10]
                      rw [hv]
                      exact c50 (by linarith)
                    · by_cases g11 : (0:ℚ) ≤ h1
                      · have hv : tierIdxChar h1 = 0 := by
                          unfold tierIdxChar
                          rw [if_neg g1, if_neg g2, if_neg g3, if_neg g4, if_neg g5, if_neg g6, if_neg g7, if_neg g8, if_neg g9, if_neg g10, if_pos g11]
                        rw [hv]
                        exact c0 (by linarith)
                      · have hv : tierIdxChar h1 = -1 := by
                          unfold tierIdxChar
                          rw [if_neg g1, if_neg g2, if_neg g3, if_neg g4, if_neg g5, if_neg g6, if_neg g7, if_neg g8, if_neg g9, if_neg g10, if_neg g11]
                        rw [hv]
                        exact b0


/-- The tier index of the hours-derived tier is the integer cascade. -/
theorem hoursTierChar_rankIndex (h : ℚ) (r : String)
    (hr : hoursTierChar h = some r) : rankIndex r = tierIdxChar h := by
  unfold hoursTierChar at hr
  unfold tierIdxChar
  by_cases g1 : (2300:ℚ) ≤ h
  · rw [if_pos g1] at hr
    obtain rfl := Option.some.inj hr
    rw [if_pos g1]
    decide
  · rw [if_neg g1] at hr
    rw [if_neg g1]
    by_cases g2 : (1800:ℚ) ≤ h
    · rw [if_pos g2] at hr
      obtain rfl := Option.some.inj hr
      rw [if_pos g2]
      decide
    · rw [if_neg g2] at hr
      rw [if_neg g2]
      by_cases g3 : (1400:ℚ) ≤ h
      · rw [if_pos g3] at hr
        obtain rfl := Option.some.inj hr
        rw [if_pos g3]
        decide
      · rw [if_neg g3] at hr
        rw [if_neg g3]
        by_cases g4 : (1000:ℚ) ≤ h
        · rw [if_pos g4] at hr
          obtain rfl := Option.some.inj hr
          rw [if_pos g4]
          decide
        · rw [if_neg g4] at hr
          rw [if_neg g4]
          by_cases g5 : (750:ℚ) ≤ h
          · rw [if_pos g5] at hr
            obtain rfl := Option.some.inj hr
            rw [if_pos g5]
            decide
          · rw [if_neg g5] at hr
            rw [if_neg g5]
            by_cases g6 : (500:ℚ) ≤ h
            · rw [if_pos g6] at hr
              obtain rfl := Option.some.inj hr
              rw [if_pos g6]
              decide
            · rw [if_neg g6] at hr
              rw [if_neg g6]
              by_cases g7 : (300:ℚ) ≤ h
              · rw [if_pos g7] at hr
                obtain rfl := Option.some.inj hr
                rw [if_pos g7]
                decide
              · rw [if_neg g7] at hr
                rw [if_neg g7]
                by_cases g8 : (180:ℚ) ≤ h
                · rw [if_pos g8] at hr
                  obtain rfl := Option.some.inj hr
                  rw [if_pos g8]
                  decide
                · rw [if_neg g8] at hr
                  rw [if_neg g8]
                  by_cases g9 : (100:ℚ) ≤ h
                  · rw [if_pos g9] at hr
                    obtain rfl := Option.some.inj hr
                    rw [if_pos g9]
                    decide
                  · rw [if_neg g9] at hr
                    rw [if_neg g9]
                    by_cases g10 : (50:ℚ) ≤ h
                    · rw [if_pos g10] at hr
                      obtain rfl := Option.some.inj hr
                      rw [if_pos g10]
                      decide
                    · rw [if_neg g10] at hr
                      rw [if_neg g10]
                      by_cases g11 : (0:ℚ) ≤ h
                      · rw [if_pos g11] at hr
                        obtain rfl := Option.some.inj hr
                        rw [if_pos g11]
                        decide
                      · rw [if_neg g11] at hr
                        exact Option.noConfusion hr


/-- Combined form: for `0 ≤ h1 ≤ h2` both hours derive tiers and the tier
index never drops. -/
theorem hoursTierChar_mono (h1 h2 : ℚ) (h0 : 0 ≤ h1) (hle : h1 ≤ h2) :
    ∃ r1 r2, hoursTierChar h1 = some r1 ∧ hoursTierChar h2 = some r2 ∧
      rankIndex r1 ≤ rankIndex r2 := by
  obtain ⟨r1, hr1⟩ := hoursTierChar_isSome h1 h0
  obtain ⟨r2, hr2⟩ := hoursTierChar_isSome h2 (le_trans h0 hle)
  refine ⟨r1, r2, hr1, hr2, ?_⟩
  rw [hoursTierChar_rankIndex h1 r1 hr1, hoursTierChar_rankIndex h2 r2 hr2]
  exact tierIdxChar_mono hle

/-- When the hours derive a tier, the promotion check leaves the pilot
holding exactly that tier. -/
theorem checkAndApplyRankUpdate_rank_eq (p : Pilot) (r : String)
    (hr : hoursTier p.flightHours = some r) :
    (checkAndApplyRankUpdate p).1.rank = r := by
  simp only [checkAndApplyRankUpdate, hr, Option.getD_some]
  split_ifs with hne
  · rfl
  · exact (not_not.mp hne).symm

/-- The awarded hours are non-negative for a non-negative claim. -/
theorem awardedHours_nonneg (findRoster : Nat → Option Roster) (rep : Pirep)
    (hft : 0 ≤ rep.flightTime) : 0 ≤ awardedHours findRoster rep := by
  unfold awardedHours
  repeat' split
  any_goals exact hft
  rename_i hm
  exact mul_nonneg hft (le_trans zero_le_one (le_of_lt hm))

/-- One approval step: starting from a pilot with non-negative hours whose
rank does not exceed the hours-derived tier, the resulting pilot again has
non-negative hours, a rank index at least the old one, and a rank at most
the new hours-derived tier. -/
theorem approveStep_rank_mono (findRoster : Nat → Option Roster) (reviewer : Nat)
    (now : Int) (pilot : Pilot) (rep : Pirep)
    (h0 : 0 ≤ pilot.flightHours)
    (hinv : ∀ r, hoursTier pilot.flightHours = some r →
      rankIndex pilot.rank ≤ rankIndex r)
    (hft : 0 ≤ rep.flightTime) :
    0 ≤ (approvePirep findRoster reviewer now pilot rep).2.1.flightHours ∧
    rankIndex pilot.rank
      ≤ rankIndex (approvePirep findRoster reviewer now pilot rep).2.1.rank ∧
    (∀ r, hoursTier (approvePirep findRoster reviewer now pilot rep).2.1.flightHours
        = some r →
      rankIndex (approvePirep findRoster reviewer now pilot rep).2.1.rank
        ≤ rankIndex r) := by
  by_cases hst : rep.status ≠ PirepStatus.PENDING
  · simp only [approvePirep, if_pos hst]
    exact ⟨h0, le_refl _, hinv⟩
  · have hA : 0 ≤ awardedHours findRoster rep := awardedHours_nonneg findRoster rep hft
    have hle : pilot.flightHours ≤ pilot.flightHours + awardedHours findRoster rep := by
      linarith
    obtain ⟨r1, r2, hr1, hr2, hrle⟩ := hoursTierChar_mono pilot.flightHours
      (pilot.flightHours + awardedHours findRoster rep) h0 hle
    rw [← hoursTier_eq] at hr1 hr2
    simp only [approvePirep, if_neg hst]
    have hhours : ((checkAndApplyRankUpdate { pilot with
        flightHours := pilot.flightHours + awardedHours findRoster rep,
        monthlyFlightHours := pilot.monthlyFlightHours + awardedHours findRoster rep,
        dailyFlightHours := pilot.dailyFlightHours + awardedHours findRoster rep,
        lastKnownAirport := rep.arrival }).1).flightHours
        = pilot.flightHours + awardedHours findRoster rep :=
      (rankUpdate_preserves_ledger _).1
    have hrank : ((checkAndApplyRankUpdate { pilot with
        flightHours := pilot.flightHours + awardedHours findRoster rep,
        monthlyFlightHours := pilot.monthlyFlightHours + awardedHours findRoster rep,
        dailyFlightHours := pilot.dailyFlightHours + awardedHours findRoster rep,
        lastKnownAirport := rep.arrival }).1).rank = r2 :=
      checkAndApplyRankUpdate_rank_eq _ r2 hr2
    refine ⟨?_, ?_, ?_⟩
    · rw [hhours]
      linarith
    · rw [hrank]
      exact le_trans (hinv r1 hr1) hrle
    · intro r hr
      rw [hhours] at hr
      have : r = r2 := (Option.some.inj (hr2.symm.trans hr)).symm
      subst this
      rw [hrank]

/-- The scan of a fold always starts with the initial state. -/
theorem scanl_head_eq {α β : Type} (f : β → α → β) (b : β) (l : List α) :
    (List.scanl f b l).head? = some b := by
  cases l <;> simp [List.scanl]

/-- C3 (amended): for every pilot whose flight hours are non-negative and
whose rank tier index does not exceed the tier its hours entitle, and
every sequence of approvals of reports with non-negative claimed times,
the pilot's rank tier index after each approval is at least its value
before that approval.  (Without the rank-at-most-hours-tier premise the
property fails: the promotion check reassigns the hours-derived tier even
when lower, demoting a pilot ranked above their hours.) -/
theorem c3_amended_promotion_monotone (findRoster : Nat → Option Roster)
    (reviewer : Nat) (now : Int) (pilot : Pilot) (reps : List Pirep)
    (h0 : 0 ≤ pilot.flightHours)
    (hinv : ∀ r, hoursTier pilot.flightHours = some r →
      rankIndex pilot.rank ≤ rankIndex r)
    (hft : ∀ p ∈ reps, 0 ≤ p.flightTime) :
    List.Chain' (fun p q => rankIndex p.rank ≤ rankIndex q.rank)
      (reps.scanl (fun p rep => (approvePirep findRoster reviewer now p rep).2.1)
        pilot) := by
  induction reps generalizing pilot with
  | nil => simp
  | cons rep rs ih =>
    rw [List.scanl_cons, List.singleton_append, List.chain'_cons']
    obtain ⟨hs0, hsle, hsinv⟩ := approveStep_rank_mono findRoster reviewer now
      pilot rep h0 hinv (hft rep (by simp))
    constructor
    · intro q hq
      rw [scanl_head_eq] at hq
      obtain rfl := Option.some.inj (Option.mem_def.mp hq)
      exact hsle
    · exact ih _ hs0 hsinv (fun p hp => hft p (by simp [hp]))

/-- C3 as stated is false: approving one 1-hour report for a pilot who
holds Elite Captain (tier 5) with 0 logged hours drops the rank to IndGo
Cadet (tier 0) — the promotion check reassigns the hours-derived tier even
when it is below the current rank, so an approval can demote. -/
theorem c3_counterexample :
    rankIndex ((approvePirep (fun _ => none) 2 100 pilotHighRank basePirep).2.1.rank)
      < rankIndex pilotHighRank.rank := by
  have ht : hoursTier ((0:ℚ) + 1) = some "IndGo Cadet" := by
    rw [hoursTier_eq]
    unfold hoursTierChar
    norm_num
  have hrank : (approvePirep (fun _ => none) 2 100 pilotHighRank basePirep).2.1.rank
      = "IndGo Cadet" := by
    simp only [approvePirep, awardedHours, pilotHighRank, basePirep]
    rw [if_neg (by decide)]
    exact checkAndApplyRankUpdate_rank_eq _ "IndGo Cadet" ht
  rw [hrank]
  decide

/-- Witness for the amended C3: a cadet with 0 hours approving one 1-hour
report keeps a non-decreasing rank index along the trajectory. -/
theorem c3_amended_witness :
    List.Chain' (fun p q => rankIndex p.rank ≤ rankIndex q.rank)
      ([basePirep].scanl
        (fun p rep => (approvePirep (fun _ => none) 2 100 p rep).2.1) basePilot) :=
  c3_amended_promotion_monotone (fun _ => none) 2 100 basePilot [basePirep]
    (by norm_num [basePilot])
    (by
      intro r hr
      have h0 : hoursTier basePilot.flightHours = some "IndGo Cadet" := by
        rw [show basePilot.flightHours = 0 from rfl, hoursTier_eq]
        unfold hoursTierChar
        norm_num
      rw [h0] at hr
      obtain rfl := Option.some.inj hr
      decide)
    (by
      intro p hp
      rw [List.mem_singleton] at hp
      subst hp
      norm_num [basePirep])
